import Mathlib

/-!
Shallow embedding of `src/nodes/video_loaders.py` (komojini-comfyui-nodes).

Times (`start_sec`, `end_sec`) are modelled as exact rationals, Python ints
as `Int`/`Nat`.  Python `//` on ints is floor division (`Int.fdiv`); Python
`int(x)` truncates toward zero (`truncInt` below); Python `%` with a
positive right operand agrees with `Int.emod`.  The cv2 decoder is
modelled as a function from a frame position to `Option Frame`
(`seek` + `read` combined: the loop seeks before every read, so the frame
returned depends only on the requested position); `none` is a failed read
(end of stream).
-/

namespace KomojiniVideo

/-- Python `int()` applied to an exact rational value: truncation toward
zero (floor for nonnegative values, ceiling for negative ones). -/
def truncInt (q : ℚ) : ℤ :=
  if 0 ≤ q then ⌊q⌋ else ⌈q⌉

/-- Source metadata read from the opened capture at the top of
`process_video_cap` (lines 74-76): `fps`, `frame_count`, `width`,
`height`, each through Python `int()`. -/
structure SourceMeta where
  fps : ℤ
  frame_count : ℤ
  width : ℕ
  height : ℕ
deriving DecidableEq

/-- Line 78-79: `if not frame_load_cap or frame_load_cap <= 0:
frame_load_cap = 999999`.  For an int, `not frame_load_cap` means
`frame_load_cap == 0`, subsumed by `<= 0`. -/
def effective_cap (frame_load_cap : ℤ) : ℤ :=
  if frame_load_cap ≤ 0 then 999999 else frame_load_cap

/-- Lines 81-82: `if not end_sec: end_sec = frame_count / fps`
(true division, exact here). -/
def effective_end_sec (meta : SourceMeta) (end_sec : ℚ) : ℚ :=
  if end_sec = 0 then (meta.frame_count : ℚ) / (meta.fps : ℚ) else end_sec

/-- Lines 85-86: `video_sec = end_sec - start_sec;
original_frame_length = int(video_sec * fps)`. -/
def original_frame_length (meta : SourceMeta) (start_sec end_sec : ℚ) : ℤ :=
  truncInt ((effective_end_sec meta end_sec - start_sec) * (meta.fps : ℚ))

/-- Line 88: `step = max(original_frame_length // frame_load_cap, 1)`. -/
def raw_step (meta : SourceMeta) (start_sec end_sec : ℚ) (frame_load_cap : ℤ) : ℤ :=
  max (Int.fdiv (original_frame_length meta start_sec end_sec) (effective_cap frame_load_cap)) 1

/-- Line 89: `new_fps = fps // step`, the output rate before the
max-fps ceiling. -/
def pre_fps (meta : SourceMeta) (start_sec end_sec : ℚ) (frame_load_cap : ℤ) : ℤ :=
  Int.fdiv meta.fps (raw_step meta start_sec end_sec frame_load_cap)

/-- Line 91: the guard `max_fps and 0 < max_fps < new_fps`; for an int
`max_fps`, truthiness is subsumed by `0 < max_fps`. -/
def clamp_cond (meta : SourceMeta) (start_sec end_sec : ℚ) (frame_load_cap max_fps : ℤ) : Prop :=
  0 < max_fps ∧ max_fps < pre_fps meta start_sec end_sec frame_load_cap

instance (meta : SourceMeta) (start_sec end_sec : ℚ) (frame_load_cap max_fps : ℤ) :
    Decidable (clamp_cond meta start_sec end_sec frame_load_cap max_fps) :=
  inferInstanceAs (Decidable (_ ∧ _))

/-- Lines 91-94: the final stride; in the clamp branch
`step = int(step / max_fps * new_fps)` (true division then truncation). -/
def plan_step (meta : SourceMeta) (start_sec end_sec : ℚ) (frame_load_cap max_fps : ℤ) : ℤ :=
  if clamp_cond meta start_sec end_sec frame_load_cap max_fps then
    truncInt ((raw_step meta start_sec end_sec frame_load_cap : ℚ) / (max_fps : ℚ)
      * (pre_fps meta start_sec end_sec frame_load_cap : ℚ))
  else raw_step meta start_sec end_sec frame_load_cap

/-- Lines 91-95: the final output rate; `new_fps = max_fps` in the clamp
branch, otherwise `fps // step`. -/
def plan_fps (meta : SourceMeta) (start_sec end_sec : ℚ) (frame_load_cap max_fps : ℤ) : ℤ :=
  if clamp_cond meta start_sec end_sec frame_load_cap max_fps then max_fps
  else pre_fps meta start_sec end_sec frame_load_cap

/-- The `force_size` vocabulary as the code parses it (lines 40-54):
`Disabled`, or `split("x")` with an explicit or wildcard axis.  The code
takes one of three branches: width wildcard (`"?xH"`), height wildcard
(`"Wx?"`), or both axes explicit (`"WxH"`). -/
inductive ForceSize
  | Disabled : ForceSize
  | WxH (w h : ℕ) : ForceSize
  | QxH (h : ℕ) : ForceSize
  | WxQ (w : ℕ) : ForceSize
deriving DecidableEq

/-- Lines 39-55, `target_size`.  Python `(x + 4) & ~7` on a nonnegative
int clears the low three bits of `x + 4`, i.e. `(x + 4) / 8 * 8`; `//` on
nonnegative ints is `Nat` division.  Precedence: `int(width)+4 & ~7`
parses as `(int(width)+4) & ~7` since `+` binds tighter than `&`. -/
def target_size (width height : ℕ) (force_size : ForceSize) : ℕ × ℕ :=
  match force_size with
  | .Disabled => (width, height)
  | .QxH h => ((width * h / height + 4) / 8 * 8, h)
  | .WxQ w => (w, (height * w / width + 4) / 8 * 8)
  | .WxH w h => (w, h)

variable {F : Type}

/-- The `while True` loop of `process_video_cap` (lines 101-129).  One
iteration: seek to `int(curr_frame)` and read (`dec`); a failed read
breaks; otherwise the converted frame is appended and `frames_added`
incremented; then the loop breaks if `frames_added >= frame_load_cap`
(the `frame_load_cap > 0` conjunct is always true after line 78-79),
then if `curr_frame >= end_frame`; otherwise `curr_frame += step`.
`remaining` counts `frame_load_cap - frames_added` so that the recursion
is structural: after the increment, `frames_added >= frame_load_cap` iff
`remaining ≤ 1`.  The `0` pattern only matters if the loop were entered
with a non-positive cap, which the effective cap rules out; it then
behaves like the cap check firing at once, as the code would. -/
def acquireAux (dec : ℤ → Option F) (end_frame : ℚ) (step : ℤ) :
    ℕ → ℚ → List F → ℕ → List F × ℕ
  | 0, curr_frame, images, frames_added =>
    match dec (truncInt curr_frame) with
    | none => (images, frames_added)
    | some frame => (images ++ [frame], frames_added + 1)
  | 1, curr_frame, images, frames_added =>
    match dec (truncInt curr_frame) with
    | none => (images, frames_added)
    | some frame => (images ++ [frame], frames_added + 1)
  | r + 2, curr_frame, images, frames_added =>
    match dec (truncInt curr_frame) with
    | none => (images, frames_added)
    | some frame =>
      if end_frame ≤ curr_frame then (images ++ [frame], frames_added + 1)
      else acquireAux dec end_frame step (r + 1) (curr_frame + (step : ℚ))
        (images ++ [frame]) (frames_added + 1)

/-- The tuple `(images, frames_added, new_fps, width, height)` returned
by `process_video_cap` (line 133). -/
structure ProcessResult (F : Type) where
  images : List F
  frames_added : ℕ
  new_fps : ℤ
  width : ℕ
  height : ℕ

/-- `process_video_cap` (lines 67-133): the planner (lines 78-99,
decomposed above into `effective_cap`, `effective_end_sec`,
`original_frame_length`, `raw_step`, `pre_fps`, `plan_step`, `plan_fps`)
followed by the acquisition loop started at
`start_frame = fps * start_sec` with `end_frame = fps * end_sec`. -/
def process_video_cap (dec : ℤ → Option F) (meta : SourceMeta)
    (start_sec end_sec : ℚ) (frame_load_cap max_fps : ℤ) : ProcessResult F :=
  let step := plan_step meta start_sec end_sec frame_load_cap max_fps
  let new_fps := plan_fps meta start_sec end_sec frame_load_cap max_fps
  let start_frame : ℚ := (meta.fps : ℚ) * start_sec
  let end_frame : ℚ := (meta.fps : ℚ) * effective_end_sec meta end_sec
  let r := acquireAux dec end_frame step (effective_cap frame_load_cap).toNat
    start_frame [] 0
  ⟨r.1, r.2, new_fps, meta.width, meta.height⟩

/-- The errors `load_video_cv` can raise: `ValueError` when the capture
fails to open (line 152; the spec calls it `SourceUnavailable`) and
`RuntimeError("No frames generated")` when the batch is empty (lines
158-159; the spec calls it `NoFramesProduced`). -/
inductive LoadError
  | SourceUnavailable : LoadError
  | NoFramesProduced : LoadError
deriving DecidableEq

/-- The tuple `(images, frames_added, fps, width, height)` returned by
`load_video_cv` (line 176). -/
structure LoadResult (F : Type) where
  images : List F
  frame_count : ℕ
  fps : ℤ
  width : ℕ
  height : ℕ

/-- The resize stage of `load_video_cv` (lines 161-168): if `force_size`
is not `"Disabled"`, resolve `target_size`; if it differs from the source
size on either axis, run the whole batch through the external resampler
(`common_upscale`, modelled by the parameter `upscale`) and adopt the new
size; otherwise leave the batch untouched. -/
def resizeStage (upscale : List F → ℕ → ℕ → List F) (images : List F)
    (width height : ℕ) (force_size : ForceSize) : List F × ℕ × ℕ :=
  if force_size ≠ ForceSize.Disabled then
    let new_size := target_size width height force_size
    if new_size.1 ≠ width ∨ new_size.2 ≠ height then
      (upscale images new_size.1 new_size.2, new_size.1, new_size.2)
    else (images, width, height)
  else (images, width, height)

/-- `load_video_cv` (lines 136-176) from the point where the capture has
been constructed: `opened` is `video_cap.isOpened()` (false raises
`ValueError`, line 152); then `process_video_cap`; an empty frame list
raises `RuntimeError` (lines 158-159); then the resize stage.  The
`torch.cat` at line 160 concatenates the per-frame tensors along the
frame dimension and is modelled as keeping the list of frames. -/
def load_video_cv (upscale : List F → ℕ → ℕ → List F) (dec : ℤ → Option F)
    (meta : SourceMeta) (opened : Bool) (start_sec end_sec : ℚ)
    (frame_load_cap max_fps : ℤ) (force_size : ForceSize) :
    Except LoadError (LoadResult F) :=
  if !opened then .error .SourceUnavailable
  else
    let pr := process_video_cap dec meta start_sec end_sec frame_load_cap max_fps
    if pr.images.length = 0 then .error .NoFramesProduced
    else
      let rs := resizeStage upscale pr.images pr.width pr.height force_size
      .ok ⟨rs.1, pr.frames_added, pr.new_fps, rs.2.1, rs.2.2⟩

/-! Helper lemmas (shared; not tied to any single claim). -/

/-- A rational at least 1 truncates to an integer at least 1. -/
lemma one_le_truncInt {q : ℚ} (h : 1 ≤ q) : 1 ≤ truncInt q := by
  have h0 : (0 : ℚ) ≤ q := le_trans zero_le_one h
  rw [truncInt, if_pos h0]
  exact Int.le_floor.mpr (by exact_mod_cast h)

/-- The raw stride is at least 1 (the `max` at line 88). -/
lemma one_le_raw_step (meta : SourceMeta) (start_sec end_sec : ℚ) (frame_load_cap : ℤ) :
    1 ≤ raw_step meta start_sec end_sec frame_load_cap :=
  le_max_right _ _

/-- The effective cap is positive. -/
lemma one_le_effective_cap_toNat (frame_load_cap : ℤ) :
    1 ≤ (effective_cap frame_load_cap).toNat := by
  unfold effective_cap
  split
  · decide
  · omega

/-- If the first read fails, the loop returns the accumulator unchanged. -/
lemma acquireAux_first_none (dec : ℤ → Option F) (ef : ℚ) (st : ℤ)
    (remaining : ℕ) (curr : ℚ) (acc : List F) (n : ℕ)
    (h : dec (truncInt curr) = none) :
    acquireAux dec ef st remaining curr acc n = (acc, n) := by
  cases remaining with
  | zero => simp [acquireAux, h]
  | succ m => cases m <;> simp [acquireAux, h]

/-- If the first read succeeds and `end_frame ≤ curr_frame`, the loop
appends that one frame and stops (the `curr_frame >= end_frame` break,
checked after appending, before advancing). -/
lemma acquireAux_stop (dec : ℤ → Option F) (ef : ℚ) (st : ℤ)
    (remaining : ℕ) (curr : ℚ) (acc : List F) (n : ℕ) (f : F)
    (hdec : dec (truncInt curr) = some f) (hef : ef ≤ curr) :
    acquireAux dec ef st remaining curr acc n = (acc ++ [f], n + 1) := by
  cases remaining with
  | zero => simp [acquireAux, hdec]
  | succ m =>
    cases m with
    | zero => simp [acquireAux, hdec]
    | succ k => simp [acquireAux, hdec, hef]

/-- The counter returned by the loop counts exactly the appended frames. -/
lemma acquireAux_length (dec : ℤ → Option F) (ef : ℚ) (st : ℤ) :
    ∀ (remaining : ℕ) (curr : ℚ) (acc : List F) (n : ℕ), acc.length = n →
      (acquireAux dec ef st remaining curr acc n).1.length =
        (acquireAux dec ef st remaining curr acc n).2 := by
  intro remaining
  induction remaining with
  | zero =>
    intro curr acc n h
    cases hdec : dec (truncInt curr) <;> simp [acquireAux, hdec, h]
  | succ m ih =>
    intro curr acc n h
    cases hdec : dec (truncInt curr) with
    | none => rw [acquireAux_first_none dec ef st _ _ _ _ hdec]; exact h
    | some f =>
      cases m with
      | zero => simp [acquireAux, hdec, h]
      | succ k =>
        by_cases hef : ef ≤ curr
        · simp [acquireAux, hdec, hef, h]
        · have h2 := ih (curr + (st : ℚ)) (acc ++ [f]) (n + 1) (by simp [h])
          simpa [acquireAux, hdec, hef] using h2

/-- The loop appends at most `max remaining 1` frames beyond the counter
it starts from. -/
lemma acquireAux_count_le (dec : ℤ → Option F) (ef : ℚ) (st : ℤ) :
    ∀ (remaining : ℕ) (curr : ℚ) (acc : List F) (n : ℕ),
      (acquireAux dec ef st remaining curr acc n).2 ≤ n + max remaining 1 := by
  intro remaining
  induction remaining with
  | zero =>
    intro curr acc n
    cases hdec : dec (truncInt curr) <;> simp [acquireAux, hdec]
  | succ m ih =>
    intro curr acc n
    cases hdec : dec (truncInt curr) with
    | none => rw [acquireAux_first_none dec ef st _ _ _ _ hdec]; omega
    | some f =>
      cases m with
      | zero => simp [acquireAux, hdec]
      | succ k =>
        by_cases hef : ef ≤ curr
        · rw [acquireAux_stop dec ef st _ _ _ _ f hdec hef]; simp
        · have h2 := ih (curr + (st : ℚ)) (acc ++ [f]) (n + 1)
          simp only [acquireAux, hdec, hef, if_false]
          omega

/-- In `process_video_cap` the returned counter equals the length of the
returned frame list (both start at zero and move together). -/
lemma process_images_length (dec : ℤ → Option F) (meta : SourceMeta)
    (start_sec end_sec : ℚ) (frame_load_cap max_fps : ℤ) :
    (process_video_cap dec meta start_sec end_sec frame_load_cap max_fps).images.length =
      (process_video_cap dec meta start_sec end_sec frame_load_cap max_fps).frames_added :=
  acquireAux_length dec _ _ _ _ [] 0 rfl

/-- The counter returned by `process_video_cap` never exceeds the
effective cap. -/
lemma process_count_le (dec : ℤ → Option F) (meta : SourceMeta)
    (start_sec end_sec : ℚ) (frame_load_cap max_fps : ℤ) :
    (process_video_cap dec meta start_sec end_sec frame_load_cap max_fps).frames_added ≤
      (effective_cap frame_load_cap).toNat := by
  have h := acquireAux_count_le dec ((meta.fps : ℚ) * effective_end_sec meta end_sec)
    (plan_step meta start_sec end_sec frame_load_cap max_fps)
    (effective_cap frame_load_cap).toNat ((meta.fps : ℚ) * start_sec) [] 0
  have hcap := one_le_effective_cap_toNat frame_load_cap
  have heq : (process_video_cap dec meta start_sec end_sec frame_load_cap max_fps).frames_added =
      (acquireAux dec ((meta.fps : ℚ) * effective_end_sec meta end_sec)
        (plan_step meta start_sec end_sec frame_load_cap max_fps)
        (effective_cap frame_load_cap).toNat ((meta.fps : ℚ) * start_sec) [] 0).2 := rfl
  rw [heq]
  omega

/-- The resize stage preserves the batch length whenever the external
resampler does. -/
lemma resizeStage_fst_length (upscale : List F → ℕ → ℕ → List F)
    (hup : ∀ l a b, (upscale l a b).length = l.length)
    (images : List F) (width height : ℕ) (fs : ForceSize) :
    ((resizeStage upscale images width height fs).1).length = images.length := by
  unfold resizeStage
  split
  · dsimp only
    split
    · exact hup _ _ _
    · rfl
  · rfl

/-- Unfolding of `load_video_cv` for an opened capture: the guard at
line 151 passes and the rest is the empty-batch check followed by the
resize stage. -/
lemma load_video_cv_true (upscale : List F → ℕ → ℕ → List F) (dec : ℤ → Option F)
    (meta : SourceMeta) (start_sec end_sec : ℚ) (frame_load_cap max_fps : ℤ)
    (force_size : ForceSize) :
    load_video_cv upscale dec meta true start_sec end_sec frame_load_cap max_fps force_size =
      (if (process_video_cap dec meta start_sec end_sec frame_load_cap max_fps).images.length = 0
       then .error .NoFramesProduced
       else .ok
        ⟨(resizeStage upscale
            (process_video_cap dec meta start_sec end_sec frame_load_cap max_fps).images
            (process_video_cap dec meta start_sec end_sec frame_load_cap max_fps).width
            (process_video_cap dec meta start_sec end_sec frame_load_cap max_fps).height
            force_size).1,
          (process_video_cap dec meta start_sec end_sec frame_load_cap max_fps).frames_added,
          (process_video_cap dec meta start_sec end_sec frame_load_cap max_fps).new_fps,
          (resizeStage upscale
            (process_video_cap dec meta start_sec end_sec frame_load_cap max_fps).images
            (process_video_cap dec meta start_sec end_sec frame_load_cap max_fps).width
            (process_video_cap dec meta start_sec end_sec frame_load_cap max_fps).height
            force_size).2.1,
          (resizeStage upscale
            (process_video_cap dec meta start_sec end_sec frame_load_cap max_fps).images
            (process_video_cap dec meta start_sec end_sec frame_load_cap max_fps).width
            (process_video_cap dec meta start_sec end_sec frame_load_cap max_fps).height
            force_size).2.2⟩) := rfl

/-! Concrete evaluation lemmas for the running examples of the spec:
a 10-second clip `fps = 30, frame_count = 300` with
`start_sec = 0, end_sec = 0, frame_load_cap = 50`, and a degenerate clip
`fps = 1, frame_count = 2` with `frame_load_cap = 1`. -/

lemma ofl_ex1 : original_frame_length ⟨30, 300, 640, 480⟩ 0 0 = 300 := by
  have he : effective_end_sec ⟨30, 300, 640, 480⟩ 0 = 10 := by
    norm_num [effective_end_sec]
  rw [original_frame_length, he]
  norm_num [truncInt]

lemma raw_step_ex1 : raw_step ⟨30, 300, 640, 480⟩ 0 0 50 = 6 := by
  rw [raw_step, ofl_ex1]; decide

lemma pre_fps_ex1 : pre_fps ⟨30, 300, 640, 480⟩ 0 0 50 = 5 := by
  rw [pre_fps, raw_step_ex1]; decide

lemma ofl_ex2 : original_frame_length ⟨1, 2, 64, 64⟩ 0 0 = 2 := by
  have he : effective_end_sec ⟨1, 2, 64, 64⟩ 0 = 2 := by
    norm_num [effective_end_sec]
  rw [original_frame_length, he]
  norm_num [truncInt]

lemma raw_step_ex2 : raw_step ⟨1, 2, 64, 64⟩ 0 0 1 = 2 := by
  rw [raw_step, ofl_ex2]; decide

lemma pre_fps_ex2 : pre_fps ⟨1, 2, 64, 64⟩ 0 0 1 = 0 := by
  rw [pre_fps, raw_step_ex2]; decide

/-! Concrete evaluation lemmas for the inverted window
`start_sec = 5, end_sec = 1` on the 10-second clip, and for a one-frame
clip `fps = 1, frame_count = 1` with `frame_load_cap = 1` driven by a
decoder that always produces a frame. -/

lemma ofl_ex4 : original_frame_length ⟨30, 300, 640, 480⟩ 5 1 = -120 := by
  have he : effective_end_sec ⟨30, 300, 640, 480⟩ 1 = 1 := by
    rw [effective_end_sec, if_neg (by norm_num)]
  rw [original_frame_length, he, truncInt, if_neg (by norm_num)]
  rw [show ((1 : ℚ) - 5) * ((30 : ℤ) : ℚ) = ((-120 : ℤ) : ℚ) by push_cast; norm_num,
    Int.ceil_intCast]

lemma raw_step_ex4 : raw_step ⟨30, 300, 640, 480⟩ 5 1 50 = 1 := by
  rw [raw_step, ofl_ex4]; decide

lemma pre_fps_ex4 : pre_fps ⟨30, 300, 640, 480⟩ 5 1 50 = 30 := by
  rw [pre_fps, raw_step_ex4]; decide

lemma plan_fps_ex4 : plan_fps ⟨30, 300, 640, 480⟩ 5 1 50 (-1) = 30 := by
  have hcl : ¬ clamp_cond ⟨30, 300, 640, 480⟩ 5 1 50 (-1) := fun h =>
    absurd h.1 (by decide)
  rw [plan_fps, if_neg hcl, pre_fps_ex4]

lemma process_ex3_images :
    (process_video_cap (fun _ => some (0 : ℕ)) ⟨1, 1, 64, 64⟩ 0 0 1 (-1)).images = [0] :=
  rfl

/-! Claim theorems. -/

/-- Claim C1: for a source with `fps = 30` and `frame_count = 300` and a
request `start_sec = 0, end_sec = 0, frame_load_cap = 50, max_fps = -1`,
the planner computes `window_frames = 300` (`int((end_sec - start_sec) *
fps)` with `end_sec` defaulted to `frame_count / fps = 10`), stride
`step = max(window_frames // cap, 1) = 6`, and `output_fps = fps // step
= 5`. -/
theorem C1_planner_example :
    original_frame_length ⟨30, 300, 640, 480⟩ 0 0 = 300 ∧
    plan_step ⟨30, 300, 640, 480⟩ 0 0 50 (-1) = 6 ∧
    plan_fps ⟨30, 300, 640, 480⟩ 0 0 50 (-1) = 5 := by
  have hcl : ¬ clamp_cond ⟨30, 300, 640, 480⟩ 0 0 50 (-1) := fun h =>
    absurd h.1 (by decide)
  refine ⟨ofl_ex1, ?_, ?_⟩
  · rw [plan_step, if_neg hcl, raw_step_ex1]
  · rw [plan_fps, if_neg hcl, pre_fps_ex1]

/-- Claim C2: with `src_h > 0` and a width-wildcard spec `"?xH"`,
`target_size` resolves to `(((src_w * H) // src_h + 4) & ~7, H)` — the
8-alignment `(x + 4) & ~7` written as `(x + 4) / 8 * 8` on nonnegative
ints — and symmetrically for a height-wildcard spec `"Wx?"`; in
particular `src = (100, 50)` and `src = (101, 50)` with `"?x100"` both
resolve to `(200, 100)`. -/
theorem C2_target_size_wildcard (src_w src_h H : ℕ) (hh : 0 < src_h) :
    target_size src_w src_h (.QxH H) = ((src_w * H / src_h + 4) / 8 * 8, H) ∧
    target_size src_h src_w (.WxQ H) = (H, (src_w * H / src_h + 4) / 8 * 8) ∧
    target_size 100 50 (.QxH 100) = (200, 100) ∧
    target_size 101 50 (.QxH 100) = (200, 100) :=
  ⟨rfl, rfl, by decide, by decide⟩

/-- Claim C2 witness: the theorem applied at `src = (101, 50)`,
`H = 100`. -/
theorem C2_target_size_wildcard_witness :
    target_size 101 50 (.QxH 100) = (200, 100) :=
  (C2_target_size_wildcard 101 50 100 (by decide)).2.2.2

/-- Claim C9: in the max-fps clamp branch the warning condition
`(step * new_fps) % new_fps != 0` (line 92) is false for the integer
stride and any positive pre-ceiling rate, so the warning is never
emitted. -/
theorem C9_warning_unreachable (meta : SourceMeta) (start_sec end_sec : ℚ)
    (frame_load_cap : ℤ)
    (h : 1 ≤ pre_fps meta start_sec end_sec frame_load_cap) :
    (raw_step meta start_sec end_sec frame_load_cap *
        pre_fps meta start_sec end_sec frame_load_cap) %
      pre_fps meta start_sec end_sec frame_load_cap = 0 :=
  Int.mul_emod_left _ _

/-- Claim C9 witness: the theorem applied at the `fps = 30`,
`frame_count = 300`, `cap = 50` example, where `pre_fps = 5`. -/
theorem C9_warning_unreachable_witness :
    (raw_step ⟨30, 300, 640, 480⟩ 0 0 50 * pre_fps ⟨30, 300, 640, 480⟩ 0 0 50) %
      pre_fps ⟨30, 300, 640, 480⟩ 0 0 50 = 0 :=
  C9_warning_unreachable ⟨30, 300, 640, 480⟩ 0 0 50 (by rw [pre_fps_ex1]; decide)

/-- Claim C4: whenever `0 < max_fps < new_fps` the planner recomputes
the stride as `int(step / max_fps * new_fps)` and sets the final output
rate to exactly `max_fps` (lines 91-95), with no error path. -/
theorem C4_max_fps_clamp (meta : SourceMeta) (start_sec end_sec : ℚ)
    (frame_load_cap max_fps : ℤ) (h1 : 0 < max_fps)
    (h2 : max_fps < pre_fps meta start_sec end_sec frame_load_cap) :
    plan_fps meta start_sec end_sec frame_load_cap max_fps = max_fps ∧
    plan_step meta start_sec end_sec frame_load_cap max_fps =
      truncInt ((raw_step meta start_sec end_sec frame_load_cap : ℚ) /
        (max_fps : ℚ) * (pre_fps meta start_sec end_sec frame_load_cap : ℚ)) := by
  constructor
  · rw [plan_fps, if_pos ⟨h1, h2⟩]
  · rw [plan_step, if_pos ⟨h1, h2⟩]

/-- Claim C4 witness: for `fps = 30`, `frame_count = 300`,
`start_sec = 0`, `end_sec = 0`, `frame_load_cap = 50`, `max_fps = 3`,
the clamp fires (`3 < 5`) and the final output rate is `3`. -/
theorem C4_max_fps_clamp_witness :
    plan_fps ⟨30, 300, 640, 480⟩ 0 0 50 3 = 3 :=
  (C4_max_fps_clamp ⟨30, 300, 640, 480⟩ 0 0 50 3 (by decide)
    (by rw [pre_fps_ex1]; decide)).1

/-- Claim C3 is false as stated: for `fps = 1 ≥ 1`, `frame_count = 2`
and the valid request `start_sec = 0, end_sec = 0, frame_load_cap = 1,
max_fps = -1`, the window is 2 frames, `step = max(2 // 1, 1) = 2`, and
`output_fps = 1 // 2 = 0 < 1` — the code never floors `new_fps` up to
1. -/
theorem C3_counterexample :
    (1 : ℤ) ≤ (⟨1, 2, 64, 64⟩ : SourceMeta).fps ∧
    plan_step ⟨1, 2, 64, 64⟩ 0 0 1 (-1) = 2 ∧
    plan_fps ⟨1, 2, 64, 64⟩ 0 0 1 (-1) = 0 := by
  have hcl : ¬ clamp_cond ⟨1, 2, 64, 64⟩ 0 0 1 (-1) := fun h =>
    absurd h.1 (by decide)
  refine ⟨by decide, ?_, ?_⟩
  · rw [plan_step, if_neg hcl, raw_step_ex2]
  · rw [plan_fps, if_neg hcl, pre_fps_ex2]

/-- Claim C3, amended: for every `SourceMeta` with `fps ≥ 1` and every
request, the planner produces `step ≥ 1` and `0 ≤ output_fps ≤ fps`;
`output_fps ≥ 1` holds under the additional guard `step ≤ fps` (the raw
stride does not exceed the source rate). -/
theorem C3_planner_bounds (meta : SourceMeta) (start_sec end_sec : ℚ)
    (frame_load_cap max_fps : ℤ) (hfps : 1 ≤ meta.fps) :
    1 ≤ plan_step meta start_sec end_sec frame_load_cap max_fps ∧
    0 ≤ plan_fps meta start_sec end_sec frame_load_cap max_fps ∧
    plan_fps meta start_sec end_sec frame_load_cap max_fps ≤ meta.fps ∧
    (raw_step meta start_sec end_sec frame_load_cap ≤ meta.fps →
      1 ≤ plan_fps meta start_sec end_sec frame_load_cap max_fps) := by
  have hrs : 1 ≤ raw_step meta start_sec end_sec frame_load_cap :=
    one_le_raw_step meta start_sec end_sec frame_load_cap
  have hpre_eq : pre_fps meta start_sec end_sec frame_load_cap =
      meta.fps / raw_step meta start_sec end_sec frame_load_cap :=
    Int.fdiv_eq_ediv _ (by omega)
  have hpre_nonneg : 0 ≤ pre_fps meta start_sec end_sec frame_load_cap := by
    rw [hpre_eq]; exact Int.ediv_nonneg (by omega) (by omega)
  have hpre_le : pre_fps meta start_sec end_sec frame_load_cap ≤ meta.fps := by
    rw [hpre_eq]; exact Int.ediv_le_self _ (by omega)
  have hpre_ge : raw_step meta start_sec end_sec frame_load_cap ≤ meta.fps →
      1 ≤ pre_fps meta start_sec end_sec frame_load_cap := by
    intro hle
    rw [hpre_eq, Int.le_ediv_iff_mul_le (by omega)]
    omega
  by_cases hc : clamp_cond meta start_sec end_sec frame_load_cap max_fps
  · obtain ⟨h1, h2⟩ := hc
    refine ⟨?_, ?_, ?_, fun _ => ?_⟩
    · rw [plan_step, if_pos ⟨h1, h2⟩]
      apply one_le_truncInt
      have hmf : (0 : ℚ) < (max_fps : ℚ) := by exact_mod_cast h1
      have hpf : (max_fps : ℚ) ≤ (pre_fps meta start_sec end_sec frame_load_cap : ℚ) := by
        exact_mod_cast le_of_lt h2
      have h1q : (1 : ℚ) ≤ (raw_step meta start_sec end_sec frame_load_cap : ℚ) := by
        exact_mod_cast hrs
      rw [div_mul_eq_mul_div, le_div_iff₀ hmf, one_mul]
      nlinarith
    · rw [plan_fps, if_pos ⟨h1, h2⟩]; omega
    · rw [plan_fps, if_pos ⟨h1, h2⟩]; omega
    · rw [plan_fps, if_pos ⟨h1, h2⟩]; omega
  · rw [plan_step, plan_fps, if_neg hc, if_neg hc]
    exact ⟨hrs, hpre_nonneg, hpre_le, hpre_ge⟩

/-- Claim C3 witness (for the amended statement): the bounds evaluated
at the `fps = 30`, `frame_count = 300`, `cap = 50`, `max_fps = -1`
example. -/
theorem C3_planner_bounds_witness :
    1 ≤ plan_step ⟨30, 300, 640, 480⟩ 0 0 50 (-1) ∧
    0 ≤ plan_fps ⟨30, 300, 640, 480⟩ 0 0 50 (-1) ∧
    plan_fps ⟨30, 300, 640, 480⟩ 0 0 50 (-1) ≤ (30 : ℤ) ∧
    (raw_step ⟨30, 300, 640, 480⟩ 0 0 50 ≤ (30 : ℤ) →
      1 ≤ plan_fps ⟨30, 300, 640, 480⟩ 0 0 50 (-1)) :=
  C3_planner_bounds ⟨30, 300, 640, 480⟩ 0 0 50 (-1) (by decide)

/-- Claim C5 is false as stated: no `InvalidWindow` error exists in the
code.  With `start_sec = 5, end_sec = 1` on the 10-second clip, the
negative window gives `step = max(-120 // 50, 1) = 1`, the loop's first
iteration appends one frame and then stops on `curr_frame >= end_frame`
(150 ≥ 30), and the load returns a one-frame batch with `fps = 30`
instead of failing. -/
theorem C5_counterexample :
    load_video_cv (fun l _ _ => l) (fun _ => some (0 : ℕ)) ⟨30, 300, 640, 480⟩ true
      5 1 50 (-1) .Disabled = .ok ⟨[0], 1, 30, 640, 480⟩ := by
  have hle : ((⟨30, 300, 640, 480⟩ : SourceMeta).fps : ℚ) *
      effective_end_sec ⟨30, 300, 640, 480⟩ 1 ≤
      ((⟨30, 300, 640, 480⟩ : SourceMeta).fps : ℚ) * 5 := by
    rw [effective_end_sec, if_neg (by norm_num)]
    push_cast
    norm_num
  have h1 : (process_video_cap (fun _ => some (0 : ℕ)) ⟨30, 300, 640, 480⟩
      5 1 50 (-1)).images = [0] := by
    show (acquireAux (fun _ => some (0 : ℕ))
      (((⟨30, 300, 640, 480⟩ : SourceMeta).fps : ℚ) * effective_end_sec ⟨30, 300, 640, 480⟩ 1)
      (plan_step ⟨30, 300, 640, 480⟩ 5 1 50 (-1))
      (effective_cap 50).toNat
      (((⟨30, 300, 640, 480⟩ : SourceMeta).fps : ℚ) * 5) [] 0).1 = [0]
    rw [acquireAux_stop _ _ _ _ _ [] 0 0 rfl hle]
    rfl
  have h2 : (process_video_cap (fun _ => some (0 : ℕ)) ⟨30, 300, 640, 480⟩
      5 1 50 (-1)).frames_added = 1 := by
    show (acquireAux (fun _ => some (0 : ℕ))
      (((⟨30, 300, 640, 480⟩ : SourceMeta).fps : ℚ) * effective_end_sec ⟨30, 300, 640, 480⟩ 1)
      (plan_step ⟨30, 300, 640, 480⟩ 5 1 50 (-1))
      (effective_cap 50).toNat
      (((⟨30, 300, 640, 480⟩ : SourceMeta).fps : ℚ) * 5) [] 0).2 = 1
    rw [acquireAux_stop _ _ _ _ _ [] 0 0 rfl hle]
  have h3 : (process_video_cap (fun _ => some (0 : ℕ)) ⟨30, 300, 640, 480⟩
      5 1 50 (-1)).new_fps = 30 := plan_fps_ex4
  rw [load_video_cv_true, if_neg (by rw [h1]; decide)]
  rw [h1, h2, h3]
  rfl

/-- Claim C5, amended: when `end_sec` is nonzero and at most `start_sec`
(and the source rate is nonnegative), the load does not fail: the
acquisition loop appends the frame the decoder yields at `start_frame`
and immediately stops on `curr_frame >= end_frame`, so
`process_video_cap` returns exactly that one frame with counter 1 —
there is no `InvalidWindow` error in the code. -/
theorem C5_inverted_window (dec : ℤ → Option F) (meta : SourceMeta)
    (start_sec end_sec : ℚ) (frame_load_cap max_fps : ℤ) (f : F)
    (hend : end_sec ≠ 0)
    (hdec : dec (truncInt ((meta.fps : ℚ) * start_sec)) = some f)
    (hle : end_sec ≤ start_sec) (hfps : 0 ≤ meta.fps) :
    (process_video_cap dec meta start_sec end_sec frame_load_cap max_fps).images = [f] ∧
    (process_video_cap dec meta start_sec end_sec frame_load_cap max_fps).frames_added = 1 := by
  have hle' : (meta.fps : ℚ) * effective_end_sec meta end_sec ≤
      (meta.fps : ℚ) * start_sec := by
    rw [effective_end_sec, if_neg hend]
    exact mul_le_mul_of_nonneg_left hle (by exact_mod_cast hfps)
  constructor
  · show (acquireAux dec ((meta.fps : ℚ) * effective_end_sec meta end_sec)
      (plan_step meta start_sec end_sec frame_load_cap max_fps)
      (effective_cap frame_load_cap).toNat ((meta.fps : ℚ) * start_sec) [] 0).1 = [f]
    rw [acquireAux_stop _ _ _ _ _ [] 0 f hdec hle']
    rfl
  · show (acquireAux dec ((meta.fps : ℚ) * effective_end_sec meta end_sec)
      (plan_step meta start_sec end_sec frame_load_cap max_fps)
      (effective_cap frame_load_cap).toNat ((meta.fps : ℚ) * start_sec) [] 0).2 = 1
    rw [acquireAux_stop _ _ _ _ _ [] 0 f hdec hle']

/-- Claim C5 witness (for the amended statement): the inverted window
`start_sec = 5, end_sec = 1` on the 10-second clip with an
always-producing decoder yields the one-frame batch. -/
theorem C5_inverted_window_witness :
    (process_video_cap (fun _ => some (7 : ℕ)) ⟨30, 300, 640, 480⟩
      5 1 50 (-1)).images = [7] ∧
    (process_video_cap (fun _ => some (7 : ℕ)) ⟨30, 300, 640, 480⟩
      5 1 50 (-1)).frames_added = 1 :=
  C5_inverted_window _ _ 5 1 50 (-1) 7 (by norm_num) rfl (by norm_num) (by decide)

/-- Claim C6: with an opened capture, if the very first read reports
end-of-stream the load fails with the no-frames error (lines 158-159)
rather than returning an empty batch; and any successful load returns a
non-empty batch (given that the external resampler preserves batch
length, as `common_upscale` does). -/
theorem C6_no_frames_error (upscale : List F → ℕ → ℕ → List F) (dec : ℤ → Option F)
    (meta : SourceMeta) (start_sec end_sec : ℚ) (frame_load_cap max_fps : ℤ)
    (force_size : ForceSize) :
    (dec (truncInt ((meta.fps : ℚ) * start_sec)) = none →
      load_video_cv upscale dec meta true start_sec end_sec frame_load_cap max_fps force_size
        = .error .NoFramesProduced) ∧
    ((∀ l a b, (upscale l a b).length = l.length) →
      ∀ r : LoadResult F,
        load_video_cv upscale dec meta true start_sec end_sec frame_load_cap max_fps force_size
          = .ok r → r.images ≠ []) := by
  constructor
  · intro hdec
    have h0 : (process_video_cap dec meta start_sec end_sec frame_load_cap max_fps).images
        = [] := by
      show (acquireAux dec ((meta.fps : ℚ) * effective_end_sec meta end_sec)
        (plan_step meta start_sec end_sec frame_load_cap max_fps)
        (effective_cap frame_load_cap).toNat ((meta.fps : ℚ) * start_sec) [] 0).1 = []
      rw [acquireAux_first_none _ _ _ _ _ _ _ hdec]
    rw [load_video_cv_true, if_pos (by rw [h0]; rfl)]
  · intro hup r hok
    rw [load_video_cv_true] at hok
    by_cases h0 : (process_video_cap dec meta start_sec end_sec frame_load_cap
        max_fps).images.length = 0
    · rw [if_pos h0] at hok
      exact absurd hok (by simp)
    · rw [if_neg h0] at hok
      injection hok with h
      subst h
      show (resizeStage upscale
        (process_video_cap dec meta start_sec end_sec frame_load_cap max_fps).images
        (process_video_cap dec meta start_sec end_sec frame_load_cap max_fps).width
        (process_video_cap dec meta start_sec end_sec frame_load_cap max_fps).height
        force_size).1 ≠ []
      intro hnil
      have hlen := resizeStage_fst_length upscale hup
        (process_video_cap dec meta start_sec end_sec frame_load_cap max_fps).images
        (process_video_cap dec meta start_sec end_sec frame_load_cap max_fps).width
        (process_video_cap dec meta start_sec end_sec frame_load_cap max_fps).height
        force_size
      apply h0
      rw [← hlen, hnil]
      rfl

/-- Claim C6 witness: a decoder whose first read already reports
end-of-stream makes the load fail with the no-frames error; and a
successful load on a one-frame clip returns a non-empty batch. -/
theorem C6_no_frames_error_witness :
    load_video_cv (fun l _ _ => l) (fun _ => (none : Option ℕ)) ⟨30, 300, 640, 480⟩ true
      0 0 50 (-1) .Disabled = .error .NoFramesProduced ∧
    ∀ r : LoadResult ℕ,
      load_video_cv (fun l _ _ => l) (fun _ => some (0 : ℕ)) ⟨1, 1, 64, 64⟩ true
        0 0 1 (-1) .Disabled = .ok r → r.images ≠ [] :=
  ⟨(C6_no_frames_error _ _ _ 0 0 50 (-1) .Disabled).1 rfl,
   (C6_no_frames_error _ _ _ 0 0 1 (-1) .Disabled).2 (fun _ _ _ => rfl)⟩

/-- Claim C7: for every plan and every decoder behaviour, a successful
acquisition (non-empty batch) has `1 ≤ frames_added ≤ effective cap`:
the loop breaks as soon as the counter reaches the cap, and the
end-of-window break happens after appending a frame. -/
theorem C7_batch_count_bounds (dec : ℤ → Option F) (meta : SourceMeta)
    (start_sec end_sec : ℚ) (frame_load_cap max_fps : ℤ)
    (h : (process_video_cap dec meta start_sec end_sec frame_load_cap max_fps).images ≠ []) :
    1 ≤ (process_video_cap dec meta start_sec end_sec frame_load_cap max_fps).frames_added ∧
    (process_video_cap dec meta start_sec end_sec frame_load_cap max_fps).frames_added ≤
      (effective_cap frame_load_cap).toNat := by
  refine ⟨?_, process_count_le dec meta start_sec end_sec frame_load_cap max_fps⟩
  have hl := process_images_length dec meta start_sec end_sec frame_load_cap max_fps
  have hpos : 0 <
      (process_video_cap dec meta start_sec end_sec frame_load_cap max_fps).images.length :=
    List.length_pos.mpr h
  omega

/-- Claim C7 witness: the one-frame clip with `frame_load_cap = 1` and
an always-producing decoder yields a batch with `frames_added = 1`
within the cap. -/
theorem C7_batch_count_bounds_witness :
    1 ≤ (process_video_cap (fun _ => some (0 : ℕ)) ⟨1, 1, 64, 64⟩ 0 0 1 (-1)).frames_added ∧
    (process_video_cap (fun _ => some (0 : ℕ)) ⟨1, 1, 64, 64⟩ 0 0 1 (-1)).frames_added ≤
      (effective_cap 1).toNat :=
  C7_batch_count_bounds _ _ 0 0 1 (-1) (by rw [process_ex3_images]; decide)

/-- Claim C8: the resize stage is the identity in both no-op cases — a
`Disabled` spec returns the batch with the source size, and a resolved
target equal to the source size skips the resampler entirely (the
result does not depend on `upscale`). -/
theorem C8_resize_noop (upscale : List F → ℕ → ℕ → List F) (images : List F)
    (width height : ℕ) :
    resizeStage upscale images width height .Disabled = (images, width, height) ∧
    ∀ fs : ForceSize, target_size width height fs = (width, height) →
      resizeStage upscale images width height fs = (images, width, height) := by
  constructor
  · simp [resizeStage]
  · intro fs hfs
    by_cases hd : fs = ForceSize.Disabled
    · subst hd; simp [resizeStage]
    · simp [resizeStage, hd, hfs]

/-- Claim C8 witness: the theorem applied to a one-frame batch at
`(200, 100)` with the `Disabled` spec and with the spec `"?x100"`, whose
resolved target equals the source size; the resampler passed in returns
an empty list, so the unchanged output shows it was never called. -/
theorem C8_resize_noop_witness :
    resizeStage (fun _ _ _ => ([] : List ℕ)) [0] 200 100 .Disabled = ([0], 200, 100) ∧
    resizeStage (fun _ _ _ => ([] : List ℕ)) [0] 200 100 (.QxH 100) = ([0], 200, 100) :=
  ⟨(C8_resize_noop _ [0] 200 100).1,
   (C8_resize_noop _ [0] 200 100).2 (.QxH 100) (by decide)⟩

/-- Claim C10: on every successful load the returned `frame_count`
equals the length of the returned batch — the counter is incremented
exactly once per appended frame, and the resize stage preserves the
batch length (given a length-preserving resampler, as `common_upscale`
is). -/
theorem C10_count_eq_length (upscale : List F → ℕ → ℕ → List F) (dec : ℤ → Option F)
    (meta : SourceMeta) (start_sec end_sec : ℚ) (frame_load_cap max_fps : ℤ)
    (force_size : ForceSize)
    (hup : ∀ l a b, (upscale l a b).length = l.length) (r : LoadResult F)
    (hok : load_video_cv upscale dec meta true start_sec end_sec frame_load_cap max_fps
      force_size = .ok r) :
    r.images.length = r.frame_count := by
  rw [load_video_cv_true] at hok
  by_cases h0 : (process_video_cap dec meta start_sec end_sec frame_load_cap
      max_fps).images.length = 0
  · rw [if_pos h0] at hok
    exact absurd hok (by simp)
  · rw [if_neg h0] at hok
    injection hok with h
    subst h
    show (resizeStage upscale
      (process_video_cap dec meta start_sec end_sec frame_load_cap max_fps).images
      (process_video_cap dec meta start_sec end_sec frame_load_cap max_fps).width
      (process_video_cap dec meta start_sec end_sec frame_load_cap max_fps).height
      force_size).1.length =
      (process_video_cap dec meta start_sec end_sec frame_load_cap max_fps).frames_added
    rw [resizeStage_fst_length upscale hup,
      process_images_length dec meta start_sec end_sec frame_load_cap max_fps]

/-- Claim C10 witness: the one-frame clip loaded with the identity
resampler returns a batch of length 1 and `frame_count = 1`. -/
theorem C10_count_eq_length_witness :
    ((⟨[0], 1, plan_fps ⟨1, 1, 64, 64⟩ 0 0 1 (-1), 64, 64⟩ : LoadResult ℕ).images).length =
      (⟨[0], 1, plan_fps ⟨1, 1, 64, 64⟩ 0 0 1 (-1), 64, 64⟩ : LoadResult ℕ).frame_count :=
  C10_count_eq_length (fun l _ _ => l) (fun _ => some (0 : ℕ)) ⟨1, 1, 64, 64⟩ 0 0 1 (-1)
    .Disabled (fun _ _ _ => rfl) ⟨[0], 1, plan_fps ⟨1, 1, 64, 64⟩ 0 0 1 (-1), 64, 64⟩ rfl

end KomojiniVideo
